import Mathlib

/-
  Shallow embedding of the lambda-gcalsns notification pipeline.

  The repository contains several iterations of the same application:
  an early JavaScript handler (src/unnamed/part_000, two documents), a
  TypeScript handler (first document of src/src/index.ts), and class-based
  AppContext variants (src/src/app-ctx.ts and the second document of
  src/src/index.ts) with their services (src/src/google/contacts.service.ts,
  src/unnamed/part_008, src/src/aws/monthly-sms-count-datastore.service.ts,
  src/src/aws/sms.service.ts, src/src/aws/email.service.ts).

  Each definition below is translated from one of those sources; the doc
  comment names the source.  JavaScript values that may be undefined are
  modelled as Option, truthiness tests as the truthy* helpers, promise
  results of external calls as Except JsErr parameters, and JavaScript
  object maps as functions String to Option String.
-/

/-- JavaScript truthiness of a possibly undefined string: undefined, null
and the empty string are falsy. -/
def truthyS : Option String → Bool
  | none => false
  | some s => !s.isEmpty

/-- JavaScript truthiness of a possibly undefined number: undefined and 0
are falsy. -/
def truthyN : Option Nat → Bool
  | none => false
  | some n => n != 0

/-- String interpolation of a possibly undefined value: template literals
render undefined as the text undefined. -/
def jsShowOptStr : Option String → String
  | none => "undefined"
  | some s => s

/-- JavaScript or-default: the idiom x or-else d used on strings. -/
def jsOrS (x : Option String) (d : String) : String :=
  match x with
  | none => d
  | some s => if s.isEmpty then d else s

/-- A value thrown by the code: either a thrown string or an Error object. -/
inductive JsErr
  | str (s : String)
  | errObj (message : String)
deriving DecidableEq

/-- JSON.stringify of a plain string (the inputs exercised here contain no
characters that would need escaping). -/
def jsonStringifyStr (s : String) : String := "\"" ++ s ++ "\""

/-- JSON.stringify of a thrown value: a thrown string is quoted; an Error
object has no enumerable own properties and stringifies to an empty
object literal. -/
def jsonStringifyErr : JsErr → String
  | .str s => jsonStringifyStr s
  | .errObj _ => "\x7b\x7d"

/-- Constructor test for Except results of modelled promises. -/
def exceptIsOk {ε α : Type} : Except ε α → Bool
  | .ok _ => true
  | .error _ => false

/-! ## Phone directory -/

/-- String.prototype.toLowerCase on one character (the inputs here are
ASCII). -/
def jsToLowerChar (c : Char) : Char :=
  if 'A' ≤ c && c ≤ 'Z' then Char.ofNat (c.toNat + 32) else c

/-- String.prototype.toLowerCase. -/
def jsToLower (s : String) : String := ⟨s.data.map jsToLowerChar⟩

/-- The whitespace stripped by String.prototype.trim, restricted to the
ASCII whitespace that occurs in spreadsheet cells. -/
def jsIsTrimWs (c : Char) : Bool :=
  c = ' ' || c = '\t' || c = '\n' || c = '\r'

/-- String.prototype.trim. -/
def jsTrim (s : String) : String :=
  ⟨((s.data.dropWhile jsIsTrimWs).reverse.dropWhile jsIsTrimWs).reverse⟩

/-- A JavaScript object used as a map from contact id to phone number. -/
def PhoneBook := String → Option String

/-- The empty object literal. -/
def pbEmpty : PhoneBook := fun _ => none

/-- Property assignment ret[k] = v on a JavaScript object. -/
def pbUpdate (m : PhoneBook) (k v : String) : PhoneBook :=
  fun x => if x = k then some v else m x

/-- formatPhone / toPhoneNumber (src/src/google/contacts.service.ts lines
55-66, identical in src/unnamed/part_008 and src/src/index.ts): strip
non-digits; an 11-digit number starting with 1 gets a plus, a 10-digit
number gets plus-1, anything else yields the empty string. -/
def formatPhone (s : String) : String :=
  let digits : List Char := s.data.filter Char.isDigit
  if digits.length = 11 && digits.head? = some '1' then ⟨'+' :: digits⟩
  else if digits.length = 10 then ⟨'+' :: '1' :: digits⟩
  else ""

/-- formatPhone applied to a possibly missing spreadsheet cell: a missing
cell is undefined, which is not a string, so the result is the empty
string. -/
def formatPhoneCell : Option String → String
  | none => ""
  | some s => formatPhone s

/-- ContactsService.parseContacts of src/src/google/contacts.service.ts
lines 30-38: every row assigns ret[row0.trim().toLowerCase()] =
formatPhone(row1) with no filtering; a row with no first column makes
trim() throw on undefined, which rejects the whole fetch. -/
def parseContacts_svc (rows : List (List String)) : Except Unit PhoneBook :=
  rows.foldl
    (fun acc row =>
      match acc with
      | .error e => .error e
      | .ok m =>
        match row.head? with
        | none => .error ()
        | some c0 => .ok (pbUpdate m (jsToLower (jsTrim c0)) (formatPhoneCell (row.get? 1))))
    (.ok pbEmpty)

/-- ContactsService.parseContacts of src/unnamed/part_008 lines 50-66:
rows are filtered to those with more than one column, and an entry is
added only when both the trimmed lower-cased contact id and the formatted
phone number are non-empty. -/
def parseContacts_part008 (rows : List (List String)) : PhoneBook :=
  (rows.filter (fun row => 1 < row.length)).foldl
    (fun m row =>
      let contactId := jsToLower (jsTrim ((row.get? 0).getD ""))
      let phoneNumber := formatPhoneCell (row.get? 1)
      if !contactId.isEmpty && !phoneNumber.isEmpty then pbUpdate m contactId phoneNumber
      else m)
    pbEmpty

/-- Projection used to state facts about the successful result of
parseContacts_svc. -/
def pbOf : Except Unit PhoneBook → PhoneBook
  | .ok m => m
  | .error _ => pbEmpty

/-! ## The recipient marker regex

NOTIFICATION_REGEX / EVENT_SUMMARY_REGEX is an asterisk, one or more
non-asterisk characters (captured), and an asterisk.  The character class
excludes the closing delimiter, so greedy matching needs no backtracking
inside one attempt: at an opening asterisk the candidate group is the
maximal run of non-asterisk characters, and the attempt succeeds exactly
when that run is non-empty and followed by another asterisk; otherwise the
scan advances one character, as the regex engine does. -/

/-- At a position just after an opening asterisk: the captured group and
the text after the closing asterisk, when the attempt succeeds. -/
def starGroup (l : List Char) : Option (List Char × List Char) :=
  let g := l.takeWhile (fun c => c ≠ '*')
  if g.isEmpty then none
  else
    match l.drop g.length with
    | '*' :: rest => some (g, rest)
    | _ => none

/-- Leftmost match of the recipient marker: text before the match, the
captured group, and the text after the match. -/
def notifExec : List Char → Option (List Char × List Char × List Char)
  | [] => none
  | c :: rest =>
    if c = '*' then
      match starGroup rest with
      | some (g, after) => some ([], g, after)
      | none =>
        match notifExec rest with
        | some (pre, g, after) => some (c :: pre, g, after)
        | none => none
    else
      match notifExec rest with
      | some (pre, g, after) => some (c :: pre, g, after)
      | none => none

/-- NOTIFICATION_REGEX.exec paired with summary.replace(NOTIFICATION_REGEX,
the empty string): the captured recipient name and the summary with the
whole match removed. -/
def notifMatch (s : String) : Option (String × String) :=
  match notifExec s.data with
  | some (pre, g, after) => some (⟨g⟩, ⟨pre ++ after⟩)
  | none => none

/-! ## Template interpolation

TMPL_VAR_REGEX is two opening braces, optional whitespace, a captured name
of letters, digits and underscores, optional whitespace, and two closing
braces, with the global and ignore-case flags.  interpolate
(src/src/app-ctx.ts lines 478-485, src/src/index.ts lines 255-262)
repeatedly runs exec over the template and replaces, in the accumulated
result, the first occurrence of the matched text by the variable value or
a question mark when the value is missing or empty.  exec with a global
regex resumes after the previous match, so matches are the
non-overlapping leftmost ones; after the final null the regex state is
reset, so each call starts fresh.  The value is inserted literally; the
dollar escape processing of String.replace is not modelled, and property
lookup is modelled as a plain map, without the object prototype chain --
neither is exercised by the properties stated below, which hold uniformly
in the inserted values. -/

/-- Whitespace as matched inside the template marker. -/
def isTmplWs (c : Char) : Bool :=
  c = ' ' || c = '\t' || c = '\n' || c = '\r'

/-- The character class of template variable names, with the ignore-case
flag: letters of either case, digits, underscore. -/
def isTmplNameChar (c : Char) : Bool :=
  ('A' ≤ c && c ≤ 'Z') || ('a' ≤ c && c ≤ 'z') || c.isDigit || c = '_'

/-- Attempt to match the template marker at the head of the text: the full
matched text, the captured name, and the remainder. -/
def tryTmplAt : List Char → Option (List Char × String × List Char)
  | '{' :: '{' :: rest =>
    let ws1 := rest.takeWhile isTmplWs
    let r1 := rest.drop ws1.length
    let name := r1.takeWhile isTmplNameChar
    if name.isEmpty then none
    else
      let r2 := r1.drop name.length
      let ws2 := r2.takeWhile isTmplWs
      match r2.drop ws2.length with
      | '}' :: '}' :: rem =>
        some ('{' :: '{' :: (ws1 ++ name ++ ws2 ++ ['}', '}']), ⟨name⟩, rem)
      | _ => none
  | _ => none

/-- Scan for all non-overlapping leftmost matches, with fuel bounding the
number of scan steps; the initial fuel of one unit per character always
suffices because a successful match consumes at least four characters. -/
def tmplScanF : Nat → List Char → List (List Char × String)
  | 0, _ => []
  | _ + 1, [] => []
  | fuel + 1, c :: rest =>
    match tryTmplAt (c :: rest) with
    | some (full, name, rem) => (full, name) :: tmplScanF fuel rem
    | none => tmplScanF fuel rest

/-- All matches of TMPL_VAR_REGEX over a template, in order. -/
def tmplScan (s : List Char) : List (List Char × String) :=
  tmplScanF s.length s

/-- Whether pat occurs at the head of s. -/
def listStartsWith : List Char → List Char → Bool
  | _, [] => true
  | [], _ :: _ => false
  | c :: s, p :: pat => c = p && listStartsWith s pat

/-- String.replace with a string pattern: replace the first occurrence of
pat in s by repl. -/
def replaceFirst (s pat repl : List Char) : List Char :=
  match s with
  | [] => []
  | c :: rest =>
    if listStartsWith (c :: rest) pat then repl ++ (c :: rest).drop pat.length
    else c :: replaceFirst rest pat repl

/-- The replacement text for one captured name: the mapped value when it
is truthy, else a question mark (tmplVars[name] or-else the question
mark). -/
def jsLookup (vars : String → Option String) (name : String) : String :=
  match vars name with
  | some v => if v.isEmpty then "?" else v
  | none => "?"

/-- interpolate (src/src/app-ctx.ts lines 478-485): fold the matches over
the template, replacing the first occurrence of each matched text in the
accumulated result. -/
def interpolate (tmpl : String) (vars : String → Option String) : String :=
  ⟨(tmplScan tmpl.data).foldl
    (fun ret m => replaceFirst ret m.1 (jsLookup vars m.2).data) tmpl.data⟩

/-- Removing a property from a variable map. -/
def removeVar (vars : String → Option String) (name : String) : String → Option String :=
  fun n => if n = name then none else vars n

/-! ## Calendar events and the per-event pipeline -/

/-- The part of a Google Calendar event read by the per-event pipeline. -/
structure CalEvent where
  summary : Option String

/-- The mutable run counters of AppContext (src/src/app-ctx.ts lines
189-190) together with config.sms.monthlyQuota. -/
structure RunSt where
  oldCount : Nat
  sentCount : Nat
  monthlyQuota : Nat

/-- AppContext.isMonthlyQuotaReached (src/src/app-ctx.ts lines 318-320):
not (oldCount + sentCount < monthlyQuota). -/
def isMonthlyQuotaReached (st : RunSt) : Bool :=
  !(st.oldCount + st.sentCount < st.monthlyQuota)

/-- The EventInfo record built by AppContext.readEventInfo. -/
structure EventInfo where
  contactName : String
  eventName : String
  textMessage : String
  phoneNumber : String

/-- AppContext.readEventInfo (src/src/app-ctx.ts lines 375-409).  The
first component records which phone book keys were read (the
hasOwnProperty test and the subsequent indexing use the same key).  The
message rendering toTextMessage is passed in as msgOf, applied to the
event, the stripped event name and the contact name; its time zone
handling is modelled separately below.  A falsy summary throws an Error
object; a summary without the marker throws a plain string. -/
def readEventInfo_ctx (msgOf : CalEvent → String → String → String)
    (pb : PhoneBook) (ev : CalEvent) : List String × Except JsErr EventInfo :=
  if !truthyS ev.summary then ([], .error (.errObj "Event has no summary"))
  else
    let s := ev.summary.getD ""
    match notifMatch s with
    | none => ([], .error (.str ("Non-notification event: " ++ s)))
    | some (contactName, eventName) =>
      let contactId := jsToLower contactName
      match pb contactId with
      | none => ([contactId], .error (.errObj ("No phone number for " ++ contactName)))
      | some phone =>
        ([contactId], .ok ⟨contactName, eventName, msgOf ev eventName contactName, phone⟩)

/-- The observable outcome of processing one event: the human readable
result line, the increment applied to sentCount once the send settles,
whether the quota counters were read, and which phone book keys were
read. -/
structure PEResult where
  line : String
  sentDelta : Nat
  quotaConsulted : Bool
  lookups : List String

/-- AppContext.processEvent (src/src/app-ctx.ts lines 329-350): the quota
check runs first on every event; only then is the event parsed and the
send awaited, with thrown values and send rejections both caught and
rendered into the error line.  sendOutcome is the settled result of
SmsService.sendTextMessage: false when sending is disabled, the truthiness
of the returned MessageId on success, a rejection on failure. -/
def processEvent_ctx (msgOf : CalEvent → String → String → String)
    (pb : PhoneBook) (st : RunSt) (sendOutcome : Except JsErr Bool)
    (ev : CalEvent) : PEResult :=
  if !isMonthlyQuotaReached st then
    match readEventInfo_ctx msgOf pb ev with
    | (lks, .error e) =>
      ⟨"An error occurred during while processing " ++ jsShowOptStr ev.summary
        ++ ": " ++ jsonStringifyErr e, 0, true, lks⟩
    | (lks, .ok info) =>
      match sendOutcome with
      | .ok true => ⟨"Text sent to " ++ info.phoneNumber ++ ": " ++ info.textMessage, 1, true, lks⟩
      | .ok false =>
        ⟨"Text would have been sent to " ++ info.phoneNumber ++ ": " ++ info.textMessage,
          0, true, lks⟩
      | .error e =>
        ⟨"An error occurred during while processing " ++ jsShowOptStr ev.summary
          ++ ": " ++ jsonStringifyErr e, 0, true, lks⟩
  else
    ⟨"Monthly quota was reached: (" ++ toString (st.oldCount + st.sentCount) ++ "/"
      ++ toString st.monthlyQuota ++ ")", 0, true, []⟩

/-- Whether the synchronous prefix of processEvent for one event reaches
the awaited send: the quota is not reached and readEventInfo succeeds. -/
def syncAdmitted (msgOf : CalEvent → String → String → String)
    (pb : PhoneBook) (st : RunSt) (ev : CalEvent) : Bool :=
  !isMonthlyQuotaReached st && exceptIsOk (readEventInfo_ctx msgOf pb ev).2

/-- The final sentCount of AppContext.processEvents (src/src/app-ctx.ts
lines 259-267) under the event loop schedule of Promise.all over map.
Each async processEvent runs synchronously up to its await of
sendTextMessage, and map starts them back to back on one call stack, so
every quota check reads the counters before any increment: the increment
sits in the continuation of the awaited send, which cannot run until the
whole map has returned.  Each event is paired with whether its send
settles with true; each such admitted event then increments sentCount. -/
def processEventsJsCount (msgOf : CalEvent → String → String → String)
    (pb : PhoneBook) (st : RunSt) (evs : List (CalEvent × Bool)) : Nat :=
  st.sentCount + (evs.filter (fun p => syncAdmitted msgOf pb st p.1 && p.2)).length

/-! ## The index.ts handler event loop -/

/-- The observable outcome of one iteration of the handler event loop,
with the eventual resolution of the pushed send promise folded in. -/
structure HSResult where
  line : String
  sentDelta : Nat
  lookups : List String
  quotaConsulted : Bool
  sendScheduled : Bool

/-- One iteration of the handler event loop (src/src/index.ts lines
401-435).  summary defaults to the empty string; without a marker match
the event yields the non-notification line and nothing else is touched.
With a match the contact is looked up and the message rendered (renderH
stands for toMessage); the quota comparison is read both by the admission
condition and by the invalid-parameters line.  When SMS is enabled the
send is scheduled and smsDelta is incremented only in the success
continuation; a rejection is caught into the failure line. -/
def handlerStep (contacts : PhoneBook) (renderH : CalEvent → String)
    (smsStart smsDelta monthlyQuota : Nat) (smsEnabled : Bool)
    (sendOutcome : Except JsErr Unit) (ev : CalEvent) : HSResult :=
  let summary := (ev.summary).getD ""
  match notifMatch summary with
  | none => ⟨"Non-notification event: " ++ jsShowOptStr ev.summary, 0, [], false, false⟩
  | some (recipientName, _stripped) =>
    let cid := jsToLower recipientName
    let phoneNumber := contacts cid
    let message := renderH ev
    if truthyS phoneNumber && !message.isEmpty && decide (smsStart + smsDelta < monthlyQuota) then
      if smsEnabled then
        match sendOutcome with
        | .ok _ =>
          ⟨"SMS sent to " ++ jsShowOptStr phoneNumber ++ ": " ++ message, 1, [cid], true, true⟩
        | .error e =>
          ⟨"SMS to " ++ jsShowOptStr phoneNumber ++ " failed: " ++ jsonStringifyErr e,
            0, [cid], true, true⟩
      else ⟨"Simulate SMS to " ++ jsShowOptStr phoneNumber ++ ": " ++ message, 0, [cid], true, false⟩
    else
      ⟨"Invalid notification parameters: contact(" ++ recipientName ++ "), phone("
        ++ jsShowOptStr phoneNumber ++ "), message(" ++ message ++ "), monthlyQuotaReached("
        ++ (if monthlyQuota ≤ smsStart + smsDelta then "true" else "false") ++ ")",
        0, [cid], true, false⟩

/-! ## The part_000 rollback variant -/

/-- src/unnamed/part_000 lines 358-367: on admission the handler pushes
the send promise and increments smsDelta on the spot. -/
def part000AdmitDelta (smsDelta : Nat) : Nat := smsDelta + 1

/-- src/unnamed/part_000 lines 361-366: when the pushed send settles, a
success leaves smsDelta alone and the catch decrements it to keep the
count accurate, as its comment says. -/
def part000SettleDelta (smsDelta : Nat) (sendOk : Bool) : Nat :=
  if sendOk then smsDelta else smsDelta - 1

/-! ## Start time resolution of the rendered message -/

/-- The start field of a calendar event: a date-only value for all-day
events, or a date-time, with an optional event-level time zone. -/
structure EventStart where
  date : Option String
  dateTime : Option String
  timeZone : Option String
deriving DecidableEq

/-- The local start instant a renderer formats, abstracted to the branch
taken and the time zone it uses: an all-day start is the start of the
given local day in the given zone, a timed start is the given instant
converted to the given zone. -/
inductive ResolvedStart
  | allDay (day : String) (tz : Option String)
  | timed (instant : Option String) (tz : Option String)
deriving DecidableEq

/-- The time zone a resolved start uses. -/
def startTz : ResolvedStart → Option String
  | .allDay _ tz => tz
  | .timed _ tz => tz

/-- toMessage (src/src/index.ts lines 272-286): the zone is the event
start zone or, when absent, the calendar zone; a date makes an all-day
start (moment.tz at start of day in that zone), otherwise the date-time
is converted to that zone. -/
def toMessageStart (es : EventStart) (calTimeZone : String) : ResolvedStart :=
  let tz := some (es.timeZone.getD calTimeZone)
  match es.date with
  | some d => .allDay d tz
  | none => .timed es.dateTime tz

/-- AppContext.toTextMessage (src/src/app-ctx.ts lines 452-468): the zone
is the event start zone alone -- the non-null assertion discards the
possibility of absence but at run time the value is simply undefined, and
no calendar zone is in scope; the branch structure is as in toMessage. -/
def toTextMessageStart (es : EventStart) : ResolvedStart :=
  let tz := es.timeZone
  match es.date with
  | some d => .allDay d tz
  | none => .timed es.dateTime tz

/-- The start resolution in the words of the specification: a date-only
event is treated as the start of that local day in the event time zone,
falling back to the calendar default; a date-time is converted to the
resolved time zone directly. -/
def specResolvedStart (es : EventStart) (calTimeZone : String) : ResolvedStart :=
  let resolved := some (es.timeZone.getD calTimeZone)
  match es.date with
  | some d => .allDay d resolved
  | none => .timed es.dateTime resolved

/-! ## Finalize: quota persist, summary email, credential reconcile -/

/-- The record stored by MonthlySmsCountDatastoreService. -/
structure MonthCountPair where
  month : Option String
  count : Nat
deriving DecidableEq

/-- MonthlySmsCountDatastoreService.updateCountByMonth (second document of
src/src/aws/monthly-sms-count-datastore.service.ts, lines 175-192): with
SMS disabled the entry is returned without any write; with SMS enabled the
put is performed and its rejection propagates -- the try/catch around the
returned promise cannot catch an asynchronous rejection.  A successful
put resolves with no Attributes, so toType of the empty object yields an
undefined month and count 0. -/
def updateCount_ctx (smsEnabled : Bool) (month : String) (count : Nat)
    (putOutcome : Except JsErr Unit) : Except JsErr MonthCountPair :=
  if smsEnabled then putOutcome.map (fun _ => ⟨none, 0⟩)
  else .ok ⟨some month, count⟩

/-- The datastore puts performed by one updateCount call: one put of the
given count when SMS is enabled, none otherwise. -/
def updateCountPuts (smsEnabled : Bool) (count : Nat) : List Nat :=
  if smsEnabled then [count] else []

/-- AppContext.finalize calls updateCount(oldCount + sentCount)
unconditionally (src/src/app-ctx.ts line 276). -/
def finalizeCountPuts (smsEnabled : Bool) (oldCount sentCount : Nat) : List Nat :=
  updateCountPuts smsEnabled (oldCount + sentCount)

/-- EmailService.sendHtmlEmail (src/src/aws/email.service.ts lines
114-147): an empty recipient list short-circuits; with email enabled the
send is attempted and a rejection of sendEmail propagates through the
then-chain (the try/catch only guards the synchronous part); with email
disabled a fixed line results.  sesOutcome carries the MessageId of the
response when the call resolves. -/
def sendHtmlEmail_ctx (hasRecipients emailEnabled : Bool)
    (sesOutcome : Except JsErr (Option String)) : Except JsErr String :=
  if !hasRecipients then .ok "No email recipients, skipping email send"
  else if emailEnabled then
    sesOutcome.map (fun mid =>
      match mid with
      | some m => "SES object sent with MessageId " ++ m
      | none => "SES object sending failed with result \x7b\x7d")
  else .ok "Email disabled in config"

/-- The credential object of the OAuth client. -/
structure Credentials where
  access_token : Option String
  refresh_token : Option String
  expiry_date : Option Nat
  id_token : Option String
deriving DecidableEq

/-- The guard of AppContext.updateTokenOnRefresh: all four credential
fields are truthy. -/
def all4truthy (c : Credentials) : Bool :=
  truthyS c.id_token && truthyS c.access_token && truthyN c.expiry_date
    && truthyS c.refresh_token

/-- AppContext.updateTokenOnRefresh (src/src/app-ctx.ts lines 416-430):
when all four fields are truthy the three-field snapshot is saved, a
rejection being caught into the error line; otherwise no write is
attempted and the no-update line results.  The second component records
whether a datastore write was attempted. -/
def updateTokenOnRefresh_ctx (c : Credentials) (saveOutcome : Except JsErr Unit) :
    String × Bool :=
  if all4truthy c then
    match saveOutcome with
    | .ok _ => ("Saved updated GoogleAuthToken", true)
    | .error e => ("Error saving updated GoogleAuthToken: " ++ jsonStringifyErr e, true)
  else ("No GoogleAuthToken update necessary", false)

/-- AppContext.finalize (src/src/app-ctx.ts lines 274-281): Promise.all of
the count update mapped to its stored line, the summary email, and the
credential reconciliation; a rejection of any component rejects the
whole, and nothing here catches one. -/
def finalize_ctx (countR : Except JsErr MonthCountPair) (emailR : Except JsErr String)
    (tokenLine : String) : Except JsErr (List String) :=
  match countR with
  | .error e => .error e
  | .ok c =>
    match emailR with
    | .error e => .error e
    | .ok em =>
      .ok ["Stored updated " ++ jsShowOptStr c.month ++ " SMS count " ++ toString c.count,
        em, tokenLine]

/-! ## The index.ts handler finalization block -/

/-- The external writes and sends queued by the handler finalization. -/
inductive FinalAction
  | sendEmail (summary : String)
  | saveCount (value : Nat)
  | saveToken (cred : Credentials)
deriving DecidableEq

/-- The finalization block of the handler (src/src/index.ts lines
440-466): the summary email when email is enabled, the count save when
smsDelta is positive with value smsStart + smsDelta, and the token save
exactly when id_token is truthy -- the other credential fields are not
consulted, and no line is produced when the token save is skipped. -/
def handlerFinalize (emailEnabled : Bool) (smsStart smsDelta : Nat)
    (cred : Credentials) (summary : String) : List FinalAction :=
  (if emailEnabled then [FinalAction.sendEmail summary] else [])
    ++ (if 0 < smsDelta then [FinalAction.saveCount (smsStart + smsDelta)] else [])
    ++ (if truthyS cred.id_token then [FinalAction.saveToken cred] else [])

/-- The count values written by a list of finalization actions. -/
def countWrites : List FinalAction → List Nat
  | [] => []
  | .saveCount v :: rest => v :: countWrites rest
  | _ :: rest => countWrites rest

/-- The credentials written by a list of finalization actions. -/
def tokenWrites : List FinalAction → List Credentials
  | [] => []
  | .saveToken c :: rest => c :: tokenWrites rest
  | _ :: rest => tokenWrites rest

/-! ## Fetch stage -/

/-- MonthlySmsCountDatastoreService.getCountByMonth (second document of
src/src/aws/monthly-sms-count-datastore.service.ts, lines 148-155): the
datastore read is wrapped in a catch that substitutes 0, so the result
always resolves. -/
def getCurrentCount_ctx (dbOutcome : Except JsErr Nat) : Except JsErr Nat :=
  .ok (match dbOutcome with
    | .ok n => n
    | .error _ => 0)

/-- AppContext.fetchData (src/src/app-ctx.ts lines 242-251): Promise.all
of the contacts fetch, the events fetch, and getCurrentCount; a rejection
of any component rejects the whole (the settled rejection is surfaced;
which one is first in time is immaterial here and the array order is
used). -/
def fetchData_ctx (contactsR : Except JsErr PhoneBook)
    (eventsR : Except JsErr (List CalEvent)) (countDb : Except JsErr Nat) :
    Except JsErr (PhoneBook × List CalEvent × Nat) :=
  match contactsR with
  | .error e => .error e
  | .ok pb =>
    match eventsR with
    | .error e => .error e
    | .ok evs =>
      match getCurrentCount_ctx countDb with
      | .error e => .error e
      | .ok c => .ok (pb, evs, c)

/-- The quota baseline carried by a successful fetch. -/
def fetchedCount : Except JsErr (PhoneBook × List CalEvent × Nat) → Option Nat
  | .ok (_, _, c) => some c
  | .error _ => none

/-- The rest of the run after the fetch stage (src/unnamed/part_002 main):
a rejected fetch skips processing and finalization entirely, so no
external action runs; a successful fetch hands its data to the rest of
the pipeline. -/
def runActionsAfterFetch {α : Type} (fd : Except JsErr α)
    (k : α → List FinalAction) : List FinalAction :=
  match fd with
  | .error _ => []
  | .ok d => k d

/-! ## Concrete instances used in closed statements -/

/-- A fixed message renderer for concrete runs of the per-event pipeline
(the rendered text is irrelevant to the stated properties). -/
def msgOfC : CalEvent → String → String → String := fun _ _ _ => "MSG"

/-- A fixed renderer for concrete runs of the handler event loop. -/
def renderC : CalEvent → String := fun _ => "MSG"

/-- A one-entry phone book. -/
def pbC : PhoneBook := pbUpdate pbEmpty "jane" "+15551234567"

/-- A variable map binding date to the empty string. -/
def varsC : String → Option String :=
  fun n => if n = "date" then some "" else none

/-! ## Helper lemmas -/

lemma countWrites_append (l1 l2 : List FinalAction) :
    countWrites (l1 ++ l2) = countWrites l1 ++ countWrites l2 := by
  induction l1 with
  | nil => rfl
  | cons a l ih => cases a <;> simp [countWrites, ih]

lemma tokenWrites_append (l1 l2 : List FinalAction) :
    tokenWrites (l1 ++ l2) = tokenWrites l1 ++ tokenWrites l2 := by
  induction l1 with
  | nil => rfl
  | cons a l ih => cases a <;> simp [tokenWrites, ih]

/-! ## Claims -/

/-- Claim C1: the claim states that with remaining quota k, a list of N
qualifying candidates yields exactly min(N, k) admissions whether
processed sequentially or concurrently.  Under the actual event loop
schedule of Promise.all over map, every quota check runs in the
synchronous prefix of its task before any increment (the increment sits
after the awaited send), so with ceiling 1, baseline 0 and two qualifying
candidates whose dispatches both succeed, both are admitted and sent and
the final count is 2, not min(2, 1) = 1. -/
theorem c1_concurrent_quota_overrun :
    processEventsJsCount msgOfC pbC ⟨0, 0, 1⟩
      [(⟨some "*Jane* breakfast"⟩, true), (⟨some "*Jane* dinner"⟩, true)] = 2 ∧
    Nat.min 2 (1 - 0) = 1 := by
  constructor
  · decide
  · decide

/-- Claim C2 counterexample: in the src/unnamed/part_000 handler the
counter is incremented at admission time, and the dispatch failure
handler decrements it again, so after a failed dispatch the counter
differs from its value at the moment of admission -- the failure does
roll the increment back. -/
theorem c2_rollback_counterexample :
    part000AdmitDelta 0 = 1 ∧
    part000SettleDelta (part000AdmitDelta 0) false = 0 ∧
    part000SettleDelta (part000AdmitDelta 0) false ≠ part000AdmitDelta 0 := by
  decide

/-- Claim C2 amended: no variant increments the counter at admission time
and leaves it untouched on failure.  In the AppContext variant and the
index.ts handler the counter is incremented only in the success
continuation, so a failed dispatch contributes no increment at all; in
the part_000 variant the admission-time increment is decremented again by
the failure handler, restoring the pre-admission value. -/
theorem c2_failure_and_counter :
    ∀ (msgOf : CalEvent → String → String → String) (pb contacts : PhoneBook)
      (renderH : CalEvent → String) (st : RunSt) (e e2 : JsErr) (ev ev2 : CalEvent)
      (ss d q d0 : Nat) (en : Bool),
    (processEvent_ctx msgOf pb st (.error e) ev).sentDelta = 0 ∧
    (handlerStep contacts renderH ss d q en (.error e2) ev2).sentDelta = 0 ∧
    part000SettleDelta (part000AdmitDelta d0) false = d0 := by
  intro msgOf pb contacts renderH st e e2 ev ev2 ss d q d0 en
  refine ⟨?_, ?_, ?_⟩
  · unfold processEvent_ctx
    split
    · split <;> rfl
    · rfl
  · unfold handlerStep
    cases h : notifMatch (ev2.summary.getD "") with
    | none => simp only [h]
    | some p =>
      obtain ⟨name, rest⟩ := p
      simp only [h]
      split
      · split <;> rfl
      · rfl
  · unfold part000SettleDelta part000AdmitDelta
    simp

/-- Claim C3 counterexample: in ContactsService.parseContacts of
src/src/google/contacts.service.ts, the one-column row Jane is not
skipped: its trimmed lower-cased name is added as a key mapped to the
empty string (the missing phone cell fails normalization), where the
claim requires that no key be added. -/
theorem c3_svc_adds_empty_entry_counterexample :
    pbOf (parseContacts_svc [["Jane"]]) "jane" = some "" ∧
    pbOf (parseContacts_svc [["Jane"]]) "jane" ≠ none := by
  decide

/-- Claim C3 amended: in the part_008 ContactsService the claim holds as
stated -- a row with fewer than two columns, or whose phone text fails
normalization, contributes no entry and no key; in the older
src/src/google/contacts.service.ts variant such a row still adds its
trimmed lower-cased name as a key mapped to the empty string. -/
theorem c3_part008_skips_bad_rows :
    ∀ (pre post : List (List String)) (row : List String),
    row.length < 2 ∨ formatPhoneCell (row.get? 1) = "" →
    parseContacts_part008 (pre ++ row :: post) = parseContacts_part008 (pre ++ post) := by
  intro pre post row h
  unfold parseContacts_part008
  rw [List.filter_append, List.filter_append]
  by_cases hl : 1 < row.length
  · have hph : formatPhoneCell (row.get? 1) = "" := by
      rcases h with h | h
      · omega
      · exact h
    rw [List.filter_cons_of_pos (by simpa using hl)]
    rw [List.foldl_append, List.foldl_append, List.foldl_cons, hph]
    simp [show ("" : String).isEmpty = true from rfl]
  · rw [List.filter_cons_of_neg (by simpa using hl)]

/-- Claim C3 witness: the one-column row Jane contributes nothing to the
part_008 directory. -/
theorem c3_part008_skips_bad_rows_witness :
    parseContacts_part008 [["Jane"], ["Bob", "5551234567"]] =
      parseContacts_part008 [["Bob", "5551234567"]] :=
  c3_part008_skips_bad_rows [] [["Bob", "5551234567"]] ["Jane"] (Or.inl (by decide))

/-- Claim C4 counterexample: for an all-day event with no event-level
time zone, AppContext.toTextMessage does not fall back to the calendar
default time zone -- it interprets the date with no zone at all, so its
resolved start differs from the one the claim prescribes with calendar
default US/Eastern. -/
theorem c4_no_calendar_fallback_counterexample :
    toTextMessageStart ⟨some "2024-05-01", none, none⟩ ≠
      specResolvedStart ⟨some "2024-05-01", none, none⟩ "US/Eastern" := by
  decide

/-- Claim C4 amended: toMessage of src/src/index.ts resolves the start
exactly as the claim states (event time zone, falling back to the
calendar default; date as start of local day, date-time converted
directly); AppContext.toTextMessage uses the event time zone only, so it
agrees with the claim exactly when the event carries its own time zone
and otherwise uses no calendar fallback. -/
theorem c4_start_resolution :
    ∀ (es : EventStart) (cal : String),
    toMessageStart es cal = specResolvedStart es cal ∧
    startTz (toTextMessageStart es) = es.timeZone ∧
    (es.timeZone.isSome = true → toTextMessageStart es = specResolvedStart es cal) := by
  intro es cal
  obtain ⟨d, dt, tz⟩ := es
  refine ⟨rfl, ?_, ?_⟩
  · cases d <;> rfl
  · intro h
    cases tz with
    | none => simp at h
    | some z => cases d <;> rfl

/-- Claim C4 witness: with an event-level time zone present the
AppContext resolution coincides with the claimed one. -/
theorem c4_start_resolution_witness :
    (some "US/Central" : Option String).isSome = true ∧
    toTextMessageStart ⟨some "2024-05-01", none, some "US/Central"⟩ =
      specResolvedStart ⟨some "2024-05-01", none, some "US/Central"⟩ "US/Eastern" :=
  ⟨by decide,
    (c4_start_resolution ⟨some "2024-05-01", none, some "US/Central"⟩ "US/Eastern").2.2 (by decide)⟩

/-- Claim C5 counterexample: for an event whose summary has no
asterisk-wrapped segment, AppContext.processEvent reads the quota
counters before any classification, and the produced line is the caught
error rendering, not a Non-notification event line -- the claim requires
that the gate not be consulted and that a Non-notification event line be
produced. -/
theorem c5_ctx_consults_quota_counterexample :
    (processEvent_ctx msgOfC pbC ⟨0, 0, 100⟩ (.ok true) ⟨some "Standup"⟩).quotaConsulted = true ∧
    (processEvent_ctx msgOfC pbC ⟨0, 0, 100⟩ (.ok true) ⟨some "Standup"⟩).line ≠
      "Non-notification event: Standup" := by
  decide

/-- Claim C5 amended: in the index.ts handler event loop a summary with
no asterisk-wrapped segment yields exactly the Non-notification event
line, with no directory lookup, no quota read and no send; in
AppContext.processEvent such an event still performs no directory lookup
and no counter change, but the quota counters are read first, and the
line is the quota line when the quota is reached and otherwise the caught
error rendering of the thrown Non-notification string. -/
theorem c5_non_qualifying :
    ∀ (msgOf : CalEvent → String → String → String) (pb contacts : PhoneBook)
      (renderH : CalEvent → String) (st : RunSt) (sendB : Except JsErr Bool)
      (sendU : Except JsErr Unit) (ss d q : Nat) (en : Bool) (s : String),
    s.isEmpty = false → notifMatch s = none →
    handlerStep contacts renderH ss d q en sendU ⟨some s⟩ =
      ⟨"Non-notification event: " ++ s, 0, [], false, false⟩ ∧
    (processEvent_ctx msgOf pb st sendB ⟨some s⟩).lookups = [] ∧
    (processEvent_ctx msgOf pb st sendB ⟨some s⟩).sentDelta = 0 ∧
    (processEvent_ctx msgOf pb st sendB ⟨some s⟩).quotaConsulted = true ∧
    (processEvent_ctx msgOf pb st sendB ⟨some s⟩).line =
      (if isMonthlyQuotaReached st then
        "Monthly quota was reached: (" ++ toString (st.oldCount + st.sentCount) ++ "/"
          ++ toString st.monthlyQuota ++ ")"
      else
        "An error occurred during while processing " ++ s ++ ": "
          ++ jsonStringifyStr ("Non-notification event: " ++ s)) := by
  intro msgOf pb contacts renderH st sendB sendU ss d q en s hs hm
  have hstep : handlerStep contacts renderH ss d q en sendU ⟨some s⟩ =
      ⟨"Non-notification event: " ++ s, 0, [], false, false⟩ := by
    unfold handlerStep
    simp only [Option.getD_some, hm, jsShowOptStr]
  have hread : readEventInfo_ctx msgOf pb ⟨some s⟩ =
      ([], .error (.str ("Non-notification event: " ++ s))) := by
    unfold readEventInfo_ctx
    simp [truthyS, hs, hm]
  refine ⟨hstep, ?_, ?_, ?_, ?_⟩ <;>
    · unfold processEvent_ctx
      cases hq : isMonthlyQuotaReached st <;>
        simp [hq, hread, jsShowOptStr, jsonStringifyErr]

/-- Claim C5 witness: the amended statement at the summary Standup with
an empty quota state. -/
theorem c5_non_qualifying_witness :
    notifMatch "Standup" = none ∧
    handlerStep pbC renderC 0 0 100 true (.ok ()) ⟨some "Standup"⟩ =
      ⟨"Non-notification event: Standup", 0, [], false, false⟩ ∧
    (processEvent_ctx msgOfC pbC ⟨0, 0, 100⟩ (.ok true) ⟨some "Standup"⟩).lookups = [] :=
  ⟨by decide,
    (c5_non_qualifying msgOfC pbC pbC renderC ⟨0, 0, 100⟩ (.ok true) (.ok ())
      0 0 100 true "Standup" (by decide) (by decide)).1,
    (c5_non_qualifying msgOfC pbC pbC renderC ⟨0, 0, 100⟩ (.ok true) (.ok ())
      0 0 100 true "Standup" (by decide) (by decide)).2.1⟩

/-- Claim C6 counterexample: with SMS enabled, a rejected datastore put
of the quota count rejects the whole of AppContext.finalize -- nothing
catches it, where the claim requires the failure to be caught and the run
not to fail. -/
theorem c6_finalize_rejects_counterexample :
    exceptIsOk (finalize_ctx (updateCount_ctx true "2026-10" 5 (.error (.errObj "boom")))
      (.ok "Email disabled in config") "No GoogleAuthToken update necessary") = false := by
  decide

/-- Claim C6 amended: the three finalize actions are all started, but
only the credential reconciliation catches its own failure (it always
resolves with a line); finalize as a whole succeeds exactly when both the
quota-count update and the summary email resolve, a rejection of either
propagating and failing the run. -/
theorem c6_finalize_partial :
    ∀ (countR : Except JsErr MonthCountPair) (emailR : Except JsErr String)
      (cred : Credentials) (saveR : Except JsErr Unit),
    exceptIsOk (finalize_ctx countR emailR (updateTokenOnRefresh_ctx cred saveR).1) =
      (exceptIsOk countR && exceptIsOk emailR) := by
  intro countR emailR cred saveR
  cases countR <;> cases emailR <;> rfl

/-- Claim C7 counterexample: AppContext.finalize persists the quota count
even in a run with zero admissions -- with SMS enabled and baseline 5 it
performs one put of value 5, where the claim requires no write at all. -/
theorem c7_write_without_admission_counterexample :
    finalizeCountPuts true 5 0 = [5] ∧ finalizeCountPuts true 5 0 ≠ [] := by
  decide

/-- Claim C7 amended: the index.ts handler writes the count at most once,
during finalization, only when smsDelta is positive, and always with
value smsStart + smsDelta; the AppContext finalize instead calls
updateCount unconditionally, which performs exactly one put of
baseline + admitted whenever SMS is enabled -- also when nothing was
admitted -- and no put when SMS is disabled. -/
theorem c7_count_persist :
    ∀ (emailEnabled : Bool) (ss d : Nat) (cred : Credentials) (sm : String) (old sent : Nat),
    (d = 0 → countWrites (handlerFinalize emailEnabled ss d cred sm) = []) ∧
    (countWrites (handlerFinalize emailEnabled ss d cred sm)).length ≤ 1 ∧
    (∀ v ∈ countWrites (handlerFinalize emailEnabled ss d cred sm), v = ss + d) ∧
    finalizeCountPuts false old sent = [] ∧
    finalizeCountPuts true old sent = [old + sent] := by
  intro emailEnabled ss d cred sm old sent
  have hcw : countWrites (handlerFinalize emailEnabled ss d cred sm) =
      (if 0 < d then [ss + d] else []) := by
    unfold handlerFinalize
    rw [countWrites_append, countWrites_append]
    cases emailEnabled <;> cases h : truthyS cred.id_token <;>
      by_cases hd : 0 < d <;> simp [hd, countWrites]
  refine ⟨?_, ?_, ?_, rfl, rfl⟩
  · intro hd
    subst hd
    simp [hcw]
  · by_cases hd : 0 < d <;> simp [hcw, hd]
  · intro v hv
    by_cases hd : 0 < d <;> simp [hcw, hd] at hv
    simp [hv]

/-- Claim C7 witness: no count write with zero delta in the handler, and
the unconditional AppContext put at baseline 4 with zero admissions. -/
theorem c7_count_persist_witness :
    countWrites (handlerFinalize true 3 0 ⟨none, none, none, none⟩ "s") = [] ∧
    finalizeCountPuts true 4 0 = [4] :=
  ⟨(c7_count_persist true 3 0 ⟨none, none, none, none⟩ "s" 4 0).1 rfl,
    (c7_count_persist true 3 0 ⟨none, none, none, none⟩ "s" 4 0).2.2.2.2⟩

/-- Claim C8 counterexample: the index.ts handler guards the credential
save by id_token alone, so a credential carrying only an id_token is
persisted even though the other three fields are absent -- the claim
requires persistence if and only if all four fields are present. -/
theorem c8_id_token_only_counterexample :
    tokenWrites (handlerFinalize false 0 0 ⟨none, none, none, some "tok"⟩ "s") =
      [⟨none, none, none, some "tok"⟩] ∧
    all4truthy ⟨none, none, none, some "tok"⟩ = false := by
  decide

/-- Claim C8 amended: AppContext.updateTokenOnRefresh attempts the write
exactly when all four fields are truthy and otherwise -- in particular
whenever id_token is absent -- performs no write and produces the
no-update-necessary line; the index.ts handler instead guards its save by
id_token alone and produces no such line. -/
theorem c8_token_reconcile :
    ∀ (cred : Credentials) (saveR : Except JsErr Unit) (en : Bool) (ss d : Nat) (sm : String),
    (updateTokenOnRefresh_ctx cred saveR).2 = all4truthy cred ∧
    (all4truthy cred = false →
      (updateTokenOnRefresh_ctx cred saveR).1 = "No GoogleAuthToken update necessary") ∧
    tokenWrites (handlerFinalize en ss d cred sm) =
      (if truthyS cred.id_token then [cred] else []) := by
  intro cred saveR en ss d sm
  refine ⟨?_, ?_, ?_⟩
  · unfold updateTokenOnRefresh_ctx
    cases h : all4truthy cred <;> simp [h]
    cases saveR <;> rfl
  · intro h
    unfold updateTokenOnRefresh_ctx
    simp [h]
  · unfold handlerFinalize
    rw [tokenWrites_append, tokenWrites_append]
    cases en <;> cases h : truthyS cred.id_token <;>
      by_cases hd : 0 < d <;> simp [hd, tokenWrites]

/-- Claim C8 witness: a credential with the three refresh fields but no
id_token is not written and yields the no-update line. -/
theorem c8_token_reconcile_witness :
    all4truthy ⟨some "a", some "r", some 5, none⟩ = false ∧
    (updateTokenOnRefresh_ctx ⟨some "a", some "r", some 5, none⟩ (.ok ())).1 =
      "No GoogleAuthToken update necessary" :=
  ⟨by decide,
    (c8_token_reconcile ⟨some "a", some "r", some 5, none⟩ (.ok ()) true 0 0 "s").2.1 (by decide)⟩

/-- Claim C9 counterexample: a failed quota-baseline fetch does not abort
the run -- getCountByMonth catches the rejection and substitutes 0, so
fetchData resolves and processing continues with baseline 0, where the
claim requires the run to abort. -/
theorem c9_baseline_substituted_counterexample :
    exceptIsOk (fetchData_ctx (.ok pbC) (.ok []) (.error (.errObj "dynamo down"))) = true ∧
    fetchedCount (fetchData_ctx (.ok pbC) (.ok []) (.error (.errObj "dynamo down"))) = some 0 := by
  constructor
  · rfl
  · rfl

/-- Claim C9 amended: a failed contacts fetch or events fetch rejects
fetchData with the error surfaced and the rest of the run -- processing
and every finalization action -- is skipped; a failed quota-baseline
fetch, however, is caught inside the datastore and replaced by a baseline
of 0, so the run continues. -/
theorem c9_fatal_fetch :
    ∀ (pb : PhoneBook) (evs : List CalEvent) (eventsR : Except JsErr (List CalEvent))
      (dbR : Except JsErr Nat) (e : JsErr)
      (k : PhoneBook × List CalEvent × Nat → List FinalAction),
    fetchData_ctx (.error e) eventsR dbR = .error e ∧
    fetchData_ctx (.ok pb) (.error e) dbR = .error e ∧
    fetchData_ctx (.ok pb) (.ok evs) (.error e) = .ok (pb, evs, 0) ∧
    runActionsAfterFetch (Except.error e : Except JsErr (PhoneBook × List CalEvent × Nat)) k
      = [] := by
  intro pb evs eventsR dbR e k
  exact ⟨rfl, rfl, rfl, rfl⟩

/-- Claim C10: a placeholder whose variable is bound to the empty string
renders exactly as if the variable were absent -- the substitution uses
the mapped value only when it is a non-empty string, the falsy empty
string falling through to the question mark just like a missing
binding. -/
theorem c10_empty_binding :
    ∀ (tmpl : String) (vars : String → Option String) (name : String),
    vars name = some "" →
    interpolate tmpl vars = interpolate tmpl (removeVar vars name) := by
  intro tmpl vars name h
  have hl : ∀ n, jsLookup vars n = jsLookup (removeVar vars name) n := by
    intro n
    unfold jsLookup removeVar
    by_cases hn : n = name
    · subst hn
      simp [h, String.isEmpty]
    · simp [hn]
  have hfold : ∀ (ms : List (List Char × String)) (acc : List Char),
      ms.foldl (fun ret m => replaceFirst ret m.1 (jsLookup vars m.2).data) acc =
      ms.foldl (fun ret m => replaceFirst ret m.1 (jsLookup (removeVar vars name) m.2).data)
        acc := by
    intro ms
    induction ms with
    | nil => intro acc; rfl
    | cons m rest ih =>
      intro acc
      rw [List.foldl_cons, List.foldl_cons, hl m.2]
      exact ih _
  unfold interpolate
  exact congrArg String.mk (hfold _ _)

/-- Claim C10 witness: binding date to the empty string renders the
template exactly as with no date binding. -/
theorem c10_empty_binding_witness :
    varsC "date" = some "" ∧
    interpolate "x \x7b\x7b date \x7d\x7d y" varsC =
      interpolate "x \x7b\x7b date \x7d\x7d y" (removeVar varsC "date") :=
  ⟨by decide, c10_empty_binding "x \x7b\x7b date \x7d\x7d y" varsC "date" (by decide)⟩
